import Mathlib

/-!
Shallow embedding of `src/scripts/azure_idle_report.py` (Azure idle-resource
report tool): the classification and cost-attribution pipeline, the inventory
filters, the cost-map pagination, the findings builder and the snapshot
renderer, together with proofs settling the frozen claims about them.

Python strings are modelled as Lean `String` (a structure over `List Char`);
`str.lower()` is modelled as ASCII lowering via `Char.toLower` (the resource
identifiers, resource-group names and power states handled by the script are
ASCII). Python `None`-able values are modelled as `Option`; a missing dict key
(`d.get("k")`) is `none`. Cost amounts (Python floats holding decimal currency
values) are modelled as `Rat`; the claims under study only store and look up
these values, no float rounding is involved.
-/

namespace AzureIdleReport

/-- Model of Python `s.lower()` for ASCII strings: lower each character. -/
def pyLower (s : String) : String := ⟨s.data.map Char.toLower⟩

/-- Model of Python `needle in haystack` on lists of characters: `true` iff
`n` occurs as a contiguous run inside `h`. -/
def containsSubL (n : List Char) : List Char → Bool
  | [] => n.isPrefixOf []
  | c :: rest => n.isPrefixOf (c :: rest) || containsSubL n rest

/-- Model of Python `needle in haystack` on strings. -/
def strContains (n h : String) : Bool := containsSubL n.data h.data

/-- Model of Python `s.startswith(p)`. -/
def strStartsWith (p s : String) : Bool := p.data.isPrefixOf s.data

/-- Model of Python `s.endswith(p)`. -/
def strEndsWith (p s : String) : Bool := p.data.isSuffixOf s.data

-- --- AKS heuristics (`is_aks_related` and `_AKS_RG_PATTERN`) ---------------

/-- A delimiter character in the `_AKS_RG_PATTERN` regex: `-` or `_`. -/
def isDelim (c : Char) : Bool := c == '-' || c == '_'

/-- Does the list begin with `[_\-]aks[_\-]` (already lower-cased)? -/
def aksMidAt : List Char → Bool
  | c1 :: 'a' :: 'k' :: 's' :: c2 :: _ => isDelim c1 && isDelim c2
  | _ => false

/-- Does `[_\-]aks[_\-]` occur anywhere in the (lower-cased) list? -/
def hasAksMid : List Char → Bool
  | [] => false
  | c :: rest => aksMidAt (c :: rest) || hasAksMid rest

/-- Model of `_AKS_RG_PATTERN.search(rg)` as a Bool: the regex
`(^MC_)|([_\-]aks[_\-])|(^aks[_\-])|([_\-]aks$)` with `re.IGNORECASE`.
Case-insensitivity is modelled by lowering `rg` before matching the
(lower-cased) literal alternatives. -/
def aksRgMatch (rg : String) : Bool :=
  let l := pyLower rg
  strStartsWith "mc_" l
    || hasAksMid l.data
    || (strStartsWith "aks-" l || strStartsWith "aks_" l)
    || (strEndsWith "-aks" l || strEndsWith "_aks" l)

/-- The name-based checks of `is_aks_related`, applied to the already
lower-cased name `n`: `n.startswith("pvc-")`, `"kube" in n`,
`"kube-apiserver.nic" in n`, `"-pe-" in n`. -/
def nameChecks (n : String) : Bool :=
  strStartsWith "pvc-" n
    || (strContains "kube" n || strContains "kube-apiserver.nic" n || strContains "-pe-" n)

/-- Model of `is_aks_related(name, resource_group)`. The source's chain of
early `return True`s is a disjunction: the RG pattern on
`resource_group or ""`, then the name checks on `(name or "").lower()`. -/
def is_aks_related (name resource_group : Option String) : Bool :=
  aksRgMatch (resource_group.getD "") || nameChecks (pyLower (name.getD ""))

-- --- inventory records and filters -----------------------------------------

/-- A disk record as shaped by the `az resource list --query` projections in
`get_orphaned_disks`: each field is an `Option` because any JMESPath
projection may be null. -/
structure DiskRec where
  id : Option String
  name : Option String
  resourceGroup : Option String
  location : Option String
  sizeGb : Option Int
  sku : Option String
deriving DecidableEq

/-- The dedup loop of `get_orphaned_disks`: walk `by_managed + by_state`,
keep a record iff its lower-cased id is non-empty and not yet in `seen`. -/
def dedupDisks : List DiskRec → List String → List DiskRec
  | [], _ => []
  | d :: rest, seen =>
    let rid := pyLower (d.id.getD "")
    if rid ≠ "" ∧ rid ∉ seen then d :: dedupDisks rest (rid :: seen)
    else dedupDisks rest seen

/-- Model of `get_orphaned_disks`, parameterised by the two listings the
`az resource list` calls return (filter (a): `managedBy == null`; filter (b):
`diskState == 'Unattached'`). -/
def get_orphaned_disks (by_managed by_state : List DiskRec) : List DiskRec :=
  dedupDisks (by_managed ++ by_state) []

/-- A public-IP record from `get_unattached_public_ips`. -/
structure PipRec where
  id : Option String
  name : Option String
  resourceGroup : Option String
  location : Option String
  sku : Option String
  ip : Option String
deriving DecidableEq

/-- A NIC record from `get_unattached_nics`. -/
structure NicRec where
  id : Option String
  name : Option String
  resourceGroup : Option String
  location : Option String
deriving DecidableEq

/-- A VM record from the `az vm list -d` query in
`get_stopped_not_deallocated_vms`. -/
structure VmRec where
  id : Option String
  name : Option String
  resourceGroup : Option String
  location : Option String
  powerState : Option String
deriving DecidableEq

/-- The per-VM test of `get_stopped_not_deallocated_vms`:
`ps = (v.get("powerState") or "").lower()` contains `"stopped"` and does not
contain `"deallocated"`. -/
def stoppedNotDeallocated (powerState : Option String) : Bool :=
  let ps := pyLower (powerState.getD "")
  strContains "stopped" ps && !strContains "deallocated" ps

/-- Model of `get_stopped_not_deallocated_vms`, parameterised by the listing
returned by `az vm list -d`. -/
def get_stopped_not_deallocated_vms (vms : List VmRec) : List VmRec :=
  vms.filter (fun v => stoppedNotDeallocated v.powerState)

/-- A snapshot record from the `az snapshot list` query in
`get_snapshots_older_than_days`. `timeCreated` models the parsed creation
timestamp in seconds: `none` stands for a missing/falsy `timeCreated` field or
one `datetime.fromisoformat` fails to parse — both are skipped by the source.
`ageDays` is absent on input and filled in by the filter. -/
structure SnapRec where
  id : Option String
  name : Option String
  resourceGroup : Option String
  location : Option String
  timeCreated : Option Int
  sizeGb : Option Int
  ageDays : Option Int := none
deriving DecidableEq

/-- The inclusion test of `get_snapshots_older_than_days`:
`dt.timestamp() <= cutoff` where `cutoff = now - days*86400`. -/
def snapKeep (now : Int) (days : Int) (ts : Int) : Bool :=
  ts ≤ now - days * 86400

/-- The age computation `int((datetime.now(utc) - dt).days)`:
`timedelta.days` is the floor of the difference in seconds over 86400. -/
def snapAgeDays (now : Int) (ts : Int) : Int :=
  Int.fdiv (now - ts) 86400

/-- Model of `get_snapshots_older_than_days`, parameterised by the listing and
by `now` (the source reads the clock; the two `datetime.now` calls are
modelled as the same instant). Records with `timeCreated = none` are skipped;
kept records get `ageDays` set. -/
def get_snapshots_older_than_days (now : Int) (days : Int) (snaps : List SnapRec) :
    List SnapRec :=
  snaps.filterMap (fun s =>
    match s.timeCreated with
    | none => none
    | some ts =>
      if snapKeep now days ts then some { s with ageDays := some (snapAgeDays now ts) }
      else none)

-- --- cost management (`get_cost_map_last30d_by_resource_id`) ---------------

/-- A JSON cell value in a cost-query row: the cost API returns strings,
numbers and nulls. -/
inductive JVal where
  | str (v : String)
  | num (q : Rat)
  | null
deriving DecidableEq

/-- Python truthiness (`if not rid: continue`) of a cell: null, `""` and `0`
are falsy. -/
def truthy : JVal → Bool
  | .null => false
  | .str v => v ≠ ""
  | .num q => q ≠ 0

/-- `str(rid)` for a resource-id cell. Resource ids returned by the cost API
are strings; `str()` of a numeric cell is not modelled (returns `""`). -/
def cellStr : JVal → String
  | .str v => v
  | _ => ""

/-- `float(cost or 0.0)`: a falsy cost (null or `0`) becomes `0.0`; a numeric
cell is its value. Cost cells are numeric in the API; `float()` of a string
cell is not modelled (returns `0`). -/
def cellFloat : JVal → Rat
  | .num q => q
  | _ => 0

/-- A column descriptor from the response's `properties.columns` list. -/
structure Col where
  name : Option String
deriving DecidableEq

/-- One response page of the Cost Management query: `properties.columns`,
`properties.rows` and `properties.nextLink`. -/
structure Page where
  columns : List Col
  rows : List (List JVal)
  nextLink : Option String
deriving DecidableEq

/-- The `extract_from_response` helper: keep the first non-empty column list
seen (`if not cols: cols = props.get("columns", [])`), append the page's rows,
and return the page's continuation link. -/
def extract_from_response (st : List Col × List (List JVal)) (p : Page) :
    (List Col × List (List JVal)) × Option String :=
  ((if st.1.isEmpty then p.columns else st.1, st.2 ++ p.rows), p.nextLink)

/-- The `while next_link:` pagination loop. `fetch` models the
`az rest --uri next_link` call: `Except.error` is any exception, on which the
source breaks out of the loop and uses what it has. `fuel` bounds the number
of iterations (the source would loop as long as pages keep producing links);
every claim is settled at sufficient fuel. -/
def paginate (fetch : String → Except Unit Page) :
    Nat → Option String → List Col × List (List JVal) → List Col × List (List JVal)
  | _, none, st => st
  | 0, some _, st => st
  | fuel + 1, some link, st =>
    match fetch link with
    | .error _ => st
    | .ok p =>
      let (st', next) := extract_from_response st p
      paginate fetch fuel next st'

/-- The `for i, c in enumerate(cols)` index-resolution loop: the last column
whose lower-cased name is `pretaxcost` / `resourceid` / `currency` wins. -/
def resolveCols :
    List Col → Nat → Option Nat × Option Nat × Option Nat →
      Option Nat × Option Nat × Option Nat
  | [], _, st => st
  | c :: rest, i, (ic, ir, icur) =>
    let nm := pyLower (c.name.getD "")
    if nm = "pretaxcost" then resolveCols rest (i + 1) (some i, ir, icur)
    else if nm = "resourceid" then resolveCols rest (i + 1) (ic, some i, icur)
    else if nm = "currency" then resolveCols rest (i + 1) (ic, ir, some i)
    else resolveCols rest (i + 1) (ic, ir, icur)

/-- The cost map is a Python dict keyed by lower-cased resource id. -/
abbrev CostMap := List (String × Rat)

/-- Python dict assignment `m[k] = v`: overwrite the entry for `k` if present
(keeping its position), else append. -/
def dictInsert (m : CostMap) (k : String) (v : Rat) : CostMap :=
  match m with
  | [] => [(k, v)]
  | (k', v') :: rest =>
    if k' = k then (k, v) :: rest else (k', v') :: dictInsert rest k v

/-- Python dict lookup `m.get(k)`. -/
def dictGet (m : CostMap) (k : String) : Option Rat :=
  match m with
  | [] => none
  | (k', v') :: rest => if k' = k then some v' else dictGet rest k

/-- `r[i]` on a row. In-range in every API response (rows match the column
list); out-of-range reads return `null` in the model. -/
def cellAt (r : List JVal) (i : Nat) : JVal := r.getD i .null

/-- The `for r in all_rows:` loop of `get_cost_map_last30d_by_resource_id`:
update `currency` from the currency column (when resolved), skip rows with a
falsy resource id, and store `cost_map[str(rid).lower()] = float(cost or 0.0)`. -/
def buildCostMap (ir ic : Nat) (icur : Option Nat) :
    List (List JVal) → CostMap × Option JVal → CostMap × Option JVal
  | [], st => st
  | r :: rest, (m, cur) =>
    let rid := cellAt r ir
    let cost := cellAt r ic
    let cur' := match icur with
      | some j => some (cellAt r j)
      | none => cur
    if truthy rid then
      buildCostMap ir ic icur rest
        (dictInsert m (pyLower (cellStr rid)) (cellFloat cost), cur')
    else buildCostMap ir ic icur rest (m, cur')

/-- The post-pagination tail of `get_cost_map_last30d_by_resource_id`:
resolve column indices; if either the cost or resource-id column is missing,
return `({}, None)`; else run the row loop. -/
def finalizeCostMap (cols : List Col) (rows : List (List JVal)) :
    CostMap × Option JVal :=
  match resolveCols cols 0 (none, none, none) with
  | (some ic, some ir, icur) => buildCostMap ir ic icur rows ([], none)
  | _ => ([], none)

/-- Model of `get_cost_map_last30d_by_resource_id`, parameterised by the first
response page and the continuation fetcher. The first request is outside the
`try` (its failure propagates to the caller); continuation pages go through
`paginate`. -/
def get_cost_map_last30d_by_resource_id (first : Page) (fetch : String → Except Unit Page)
    (fuel : Nat) : CostMap × Option JVal :=
  let (st0, next0) := extract_from_response ([], []) first
  let (cols, rows) := paginate fetch fuel next0 st0
  finalizeCostMap cols rows

/-- Model of the `get_cost` closure in `main`: `None` when `--no-cost` is set
or the id is falsy (missing or empty), else `cost_map.get(str(rid).lower())`. -/
def get_cost (no_cost : Bool) (cost_map : CostMap) (resource_id : Option String) :
    Option Rat :=
  if no_cost || resource_id.getD "" = "" then none
  else dictGet cost_map (pyLower (resource_id.getD ""))

-- --- structured output (`remediation_hint`, `build_findings`, main loop) ---

/-- Model of `remediation_hint(resource_type, resource_id)`: empty on a falsy
id, else the fixed per-type `az` command. -/
def remediation_hint (resource_type : String) (resource_id : Option String) :
    String :=
  let rid := resource_id.getD ""
  if rid = "" then ""
  else if resource_type = "disk" then "az disk delete --ids " ++ rid ++ " --yes"
  else if resource_type = "publicIp" then "az network public-ip delete --ids " ++ rid
  else if resource_type = "nic" then "az network nic delete --ids " ++ rid
  else if resource_type = "vm" then "az vm deallocate --ids " ++ rid
  else if resource_type = "snapshot" then "az snapshot delete --ids " ++ rid
  else ""

/-- One of the per-resource `item` dicts assembled in `main`'s subscription
loop. Fields a given resource kind does not set keep their default. -/
structure Item where
  resourceType : String
  name : Option String
  resourceGroup : Option String
  location : Option String
  sizeGb : Option Int := none
  sku : Option String := none
  ip : Option String := none
  powerState : Option String := none
  ageDays : Option Int := none
  resourceId : Option String
  costLast30d : Option Rat
  currency : Option String
  remediation : String
deriving DecidableEq

/-- The `item` dict of the orphan-disk loop in `main`. -/
def mkDiskItem (no_cost : Bool) (cost_map : CostMap) (currency : Option String)
    (d : DiskRec) : Item :=
  { resourceType := "disk", name := d.name, resourceGroup := d.resourceGroup,
    location := d.location, sizeGb := d.sizeGb, sku := d.sku,
    resourceId := d.id, costLast30d := get_cost no_cost cost_map d.id,
    currency := currency, remediation := remediation_hint "disk" d.id }

/-- The `item` dict of the public-IP loop in `main`. -/
def mkPipItem (no_cost : Bool) (cost_map : CostMap) (currency : Option String)
    (p : PipRec) : Item :=
  { resourceType := "publicIp", name := p.name, resourceGroup := p.resourceGroup,
    location := p.location, sku := p.sku, ip := p.ip,
    resourceId := p.id, costLast30d := get_cost no_cost cost_map p.id,
    currency := currency, remediation := remediation_hint "publicIp" p.id }

/-- The `item` dict of the NIC loop in `main`. -/
def mkNicItem (no_cost : Bool) (cost_map : CostMap) (currency : Option String)
    (n : NicRec) : Item :=
  { resourceType := "nic", name := n.name, resourceGroup := n.resourceGroup,
    location := n.location,
    resourceId := n.id, costLast30d := get_cost no_cost cost_map n.id,
    currency := currency, remediation := remediation_hint "nic" n.id }

/-- The `item` dict of the stopped-VM loop in `main`. -/
def mkVmItem (no_cost : Bool) (cost_map : CostMap) (currency : Option String)
    (v : VmRec) : Item :=
  { resourceType := "vm", name := v.name, resourceGroup := v.resourceGroup,
    location := v.location, powerState := v.powerState,
    resourceId := v.id, costLast30d := get_cost no_cost cost_map v.id,
    currency := currency, remediation := remediation_hint "vm" v.id }

/-- The `item` dict of the snapshot loop in `main`: note `costLast30d` is the
literal `None` — no cost lookup is performed for snapshots. -/
def mkSnapItem (currency : Option String) (s : SnapRec) : Item :=
  { resourceType := "snapshot", name := s.name, resourceGroup := s.resourceGroup,
    location := s.location, sizeGb := s.sizeGb, ageDays := s.ageDays,
    resourceId := s.id, costLast30d := none,
    currency := currency, remediation := remediation_hint "snapshot" s.id }

/-- A Finding: an item tagged with its subscription and bucket by
`build_findings`. -/
structure Finding where
  subscription : String
  subscriptionId : Option String
  bucket : String
  item : Item
deriving DecidableEq

/-- Model of `build_findings`: tag the immediate items `"immediate"`, the
review items `"aks_review"`, the snapshot items `"snapshot_review"`, in that
order. The cost totals, currency and `no_cost` parameters are accepted and
unused, as in the source. -/
def build_findings (subscription_name : String) (subscription_id : Option String)
    (immediate_lines review_lines snapshot_lines : List Item)
    (cost_immediate cost_review : Rat) (currency : Option String) (no_cost : Bool) :
    List Finding :=
  immediate_lines.map (fun i => ⟨subscription_name, subscription_id, "immediate", i⟩)
    ++ review_lines.map (fun i => ⟨subscription_name, subscription_id, "aks_review", i⟩)
    ++ snapshot_lines.map (fun i => ⟨subscription_name, subscription_id, "snapshot_review", i⟩)

/-- The `immediate_items` list built by `main`'s subscription loop: non-AKS
disks, then public IPs, then non-AKS NICs, then stopped VMs. -/
def immediateItems (no_cost : Bool) (cost_map : CostMap) (currency : Option String)
    (orphan_disks : List DiskRec) (public_ips : List PipRec) (nics : List NicRec)
    (vms_waste : List VmRec) : List Item :=
  (orphan_disks.filter (fun d => !is_aks_related d.name d.resourceGroup)).map
      (mkDiskItem no_cost cost_map currency)
    ++ public_ips.map (mkPipItem no_cost cost_map currency)
    ++ (nics.filter (fun n => !is_aks_related n.name n.resourceGroup)).map
      (mkNicItem no_cost cost_map currency)
    ++ vms_waste.map (mkVmItem no_cost cost_map currency)

/-- The `review_items` list built by `main`'s subscription loop: AKS disks,
then AKS NICs. -/
def reviewItems (no_cost : Bool) (cost_map : CostMap) (currency : Option String)
    (orphan_disks : List DiskRec) (nics : List NicRec) : List Item :=
  (orphan_disks.filter (fun d => is_aks_related d.name d.resourceGroup)).map
      (mkDiskItem no_cost cost_map currency)
    ++ (nics.filter (fun n => is_aks_related n.name n.resourceGroup)).map
      (mkNicItem no_cost cost_map currency)

/-- The `snapshot_items` list built by `main`'s subscription loop. -/
def snapshotItems (currency : Option String) (snapshots_old : List SnapRec) :
    List Item :=
  snapshots_old.map (mkSnapItem currency)

/-- One subscription's contribution to `all_findings` in structured mode:
`build_findings` applied to the three item lists the loop builds. -/
def subFindings (sub_name : String) (sub_id : Option String) (no_cost : Bool)
    (cost_map : CostMap) (currency : Option String)
    (orphan_disks : List DiskRec) (public_ips : List PipRec) (nics : List NicRec)
    (vms_waste : List VmRec) (snapshots_old : List SnapRec)
    (cost_immediate cost_review : Rat) : List Finding :=
  build_findings sub_name sub_id
    (immediateItems no_cost cost_map currency orphan_disks public_ips nics vms_waste)
    (reviewItems no_cost cost_map currency orphan_disks nics)
    (snapshotItems currency snapshots_old)
    cost_immediate cost_review currency no_cost

-- --- text renderer: snapshot section ---------------------------------------

/-- The sort comparison of
`sorted(snapshots_old, key=lambda x: x.get("ageDays", 0), reverse=True)`:
`a` may precede `b` iff `b`'s age key is at most `a`'s. -/
def snapSortLe (a b : SnapRec) : Bool :=
  decide (b.ageDays.getD 0 ≤ a.ageDays.getD 0)

/-- The descending-age ordering of the text renderer (Python `sorted` is a
stable merge sort). -/
def sortedSnapshotsDesc (snapshots_old : List SnapRec) : List SnapRec :=
  snapshots_old.mergeSort snapSortLe

/-- The snapshots the text renderer prints: the `[:20]` slice of the
descending sort. -/
def displayedSnapshots (snapshots_old : List SnapRec) : List SnapRec :=
  (sortedSnapshotsDesc snapshots_old).take 20

/-- The `... (k more)` remainder note: printed iff more than 20 snapshots. -/
def snapshotRemainder (snapshots_old : List SnapRec) : Option Nat :=
  if snapshots_old.length > 20 then some (snapshots_old.length - 20) else none

-- --- helper lemmas ---------------------------------------------------------

/-- `containsSubL` decides contiguous-substring membership. -/
theorem containsSubL_iff (n : List Char) : ∀ h : List Char,
    containsSubL n h = true ↔ n <:+: h
  | [] => by simp [containsSubL]
  | c :: rest => by
    simp [containsSubL, containsSubL_iff n rest, List.infix_cons_iff]

/-- `pyLower` preserves emptiness. -/
theorem pyLower_eq_empty_iff (s : String) : pyLower s = "" ↔ s = "" := by
  constructor
  · intro h
    have hd : s.data.map Char.toLower = ([] : List Char) := congrArg String.data h
    rcases s with ⟨d⟩
    simp only [List.map_eq_nil_iff] at hd
    simp [hd]
  · rintro rfl
    rfl

/-- The lower-cased id key the dedup loop uses for a disk record. -/
def idKey (d : DiskRec) : String := pyLower (d.id.getD "")

/-- Unfolding of the dedup loop on a cons cell, phrased with `idKey`. -/
theorem dedupDisks_cons (d : DiskRec) (rest : List DiskRec) (seen : List String) :
    dedupDisks (d :: rest) seen =
      if idKey d ≠ "" ∧ idKey d ∉ seen then d :: dedupDisks rest (idKey d :: seen)
      else dedupDisks rest seen := rfl

/-- A key already seen never reappears in the dedup output. -/
theorem dedupDisks_countP_of_mem_seen (k : String) :
    ∀ (l : List DiskRec) (seen : List String), k ∈ seen →
      (dedupDisks l seen).countP (fun d => decide (idKey d = k)) = 0
  | [], _, _ => rfl
  | d :: rest, seen, hk => by
    rw [dedupDisks_cons]
    by_cases hc : idKey d ≠ "" ∧ idKey d ∉ seen
    · have hne : ¬ idKey d = k := fun he => hc.2 (he ▸ hk)
      rw [if_pos hc, List.countP_cons,
        dedupDisks_countP_of_mem_seen k rest _ (List.mem_cons_of_mem _ hk)]
      simp [hne]
    · rw [if_neg hc]
      exact dedupDisks_countP_of_mem_seen k rest seen hk
  termination_by l => l.length

/-- A non-empty, not-yet-seen key occurring in the input occurs exactly once
in the dedup output. -/
theorem dedupDisks_countP_eq_one (k : String) (hk : k ≠ "") :
    ∀ (l : List DiskRec) (seen : List String), k ∉ seen →
      (∃ d ∈ l, idKey d = k) →
      (dedupDisks l seen).countP (fun d => decide (idKey d = k)) = 1
  | [], _, _, hex => by simp at hex
  | d :: rest, seen, hs, hex => by
    rw [dedupDisks_cons]
    by_cases hdk : idKey d = k
    · have hc : idKey d ≠ "" ∧ idKey d ∉ seen := ⟨hdk ▸ hk, hdk ▸ hs⟩
      have hmem : k ∈ idKey d :: seen := by
        rw [hdk]
        exact List.mem_cons_self _ _
      rw [if_pos hc, List.countP_cons,
        dedupDisks_countP_of_mem_seen k rest _ hmem]
      simp [hdk]
    · have hex' : ∃ d' ∈ rest, idKey d' = k := by
        rcases hex with ⟨d', hd', hkey⟩
        rcases List.mem_cons.mp hd' with rfl | hmem
        · exact absurd hkey hdk
        · exact ⟨d', hmem, hkey⟩
      by_cases hc : idKey d ≠ "" ∧ idKey d ∉ seen
      · have hs' : k ∉ idKey d :: seen := by
          intro hmem
          rcases List.mem_cons.mp hmem with he | hm
          · exact hdk he.symm
          · exact hs hm
        rw [if_pos hc, List.countP_cons,
          dedupDisks_countP_eq_one k hk rest _ hs' hex']
        simp [hdk]
      · rw [if_neg hc]
        exact dedupDisks_countP_eq_one k hk rest seen hs hex'
  termination_by l => l.length

/-- Every record kept by the dedup loop has a key that is non-empty and was
not in `seen` when the loop started. -/
theorem dedupDisks_mem (b : DiskRec) :
    ∀ (l : List DiskRec) (seen : List String), b ∈ dedupDisks l seen →
      idKey b ∉ seen ∧ idKey b ≠ ""
  | [], _, hb => by simp [dedupDisks] at hb
  | d :: rest, seen, hb => by
    rw [dedupDisks_cons] at hb
    by_cases hc : idKey d ≠ "" ∧ idKey d ∉ seen
    · rw [if_pos hc] at hb
      rcases List.mem_cons.mp hb with rfl | hmem
      · exact ⟨hc.2, hc.1⟩
      · have := dedupDisks_mem b rest _ hmem
        exact ⟨fun hm => this.1 (List.mem_cons_of_mem _ hm), this.2⟩
    · rw [if_neg hc] at hb
      exact dedupDisks_mem b rest seen hb
  termination_by l => l.length

/-- The dedup output has pairwise-distinct keys. -/
theorem dedupDisks_pairwise :
    ∀ (l : List DiskRec) (seen : List String),
      (dedupDisks l seen).Pairwise (fun a b => idKey a ≠ idKey b)
  | [], _ => List.Pairwise.nil
  | d :: rest, seen => by
    rw [dedupDisks_cons]
    by_cases hc : idKey d ≠ "" ∧ idKey d ∉ seen
    · rw [if_pos hc]
      refine List.Pairwise.cons ?_ (dedupDisks_pairwise rest _)
      intro b hb he
      exact (dedupDisks_mem b rest _ hb).1 (he ▸ List.mem_cons_self _ _)
    · rw [if_neg hc]
      exact dedupDisks_pairwise rest seen
  termination_by l => l.length

-- --- claims ----------------------------------------------------------------

/-- C3: when the two orphaned-disk filters both return a record with the same
resource identifier up to case (and it is non-empty once lower-cased), the
merged inventory contains exactly one record with that identifier, and it
never contains two records whose identifiers agree up to case. -/
theorem claim_C3 (l1 l2 : List DiskRec) (d1 d2 : DiskRec)
    (h1 : d1 ∈ l1) (h2 : d2 ∈ l2) (heq : idKey d1 = idKey d2)
    (hne : idKey d1 ≠ "") :
    (get_orphaned_disks l1 l2).countP (fun d => decide (idKey d = idKey d1)) = 1
    ∧ (get_orphaned_disks l1 l2).Pairwise (fun a b => idKey a ≠ idKey b) := by
  refine ⟨?_, dedupDisks_pairwise _ _⟩
  exact dedupDisks_countP_eq_one (idKey d1) hne (l1 ++ l2) []
    (by simp) ⟨d1, List.mem_append_left _ h1, rfl⟩

/-- C3 witness: the two filters return the same disk id differing only in
case; the merged inventory has exactly one record with that id. -/
theorem claim_C3_witness :
    (get_orphaned_disks
        [{ id := some "/subscriptions/abc/X", name := some "X",
           resourceGroup := some "rg", location := some "uks",
           sizeGb := some 10, sku := some "Premium_LRS" }]
        [{ id := some "/subscriptions/abc/x", name := some "x",
           resourceGroup := some "rg", location := some "uks",
           sizeGb := some 10, sku := some "Premium_LRS" }]).countP
      (fun d => decide (idKey d =
        idKey { id := some "/subscriptions/abc/X", name := some "X",
                resourceGroup := some "rg", location := some "uks",
                sizeGb := some 10, sku := some "Premium_LRS" })) = 1 :=
  (claim_C3
    [{ id := some "/subscriptions/abc/X", name := some "X",
       resourceGroup := some "rg", location := some "uks",
       sizeGb := some 10, sku := some "Premium_LRS" }]
    [{ id := some "/subscriptions/abc/x", name := some "x",
       resourceGroup := some "rg", location := some "uks",
       sizeGb := some 10, sku := some "Premium_LRS" }]
    { id := some "/subscriptions/abc/X", name := some "X",
      resourceGroup := some "rg", location := some "uks",
      sizeGb := some 10, sku := some "Premium_LRS" }
    { id := some "/subscriptions/abc/x", name := some "x",
      resourceGroup := some "rg", location := some "uks",
      sizeGb := some 10, sku := some "Premium_LRS" }
    (by decide) (by decide) (by decide) (by decide)).1

/-- C4: a VM is flagged iff its lower-cased power state has `stopped` as a
literal contiguous substring and not `deallocated`; `"VM stopped"` is
flagged, `"VM deallocated"` and `"VM stopping"` are not. -/
theorem claim_C4 :
    (∀ ps : Option String,
      stoppedNotDeallocated ps = true ↔
        ("stopped".data <:+: (pyLower (ps.getD "")).data
          ∧ ¬ "deallocated".data <:+: (pyLower (ps.getD "")).data))
    ∧ (∀ vms : List VmRec, get_stopped_not_deallocated_vms vms =
        vms.filter (fun v => stoppedNotDeallocated v.powerState))
    ∧ stoppedNotDeallocated (some "VM stopped") = true
    ∧ stoppedNotDeallocated (some "VM deallocated") = false
    ∧ stoppedNotDeallocated (some "VM stopping") = false := by
  refine ⟨?_, fun _ => rfl, by decide, by decide, by decide⟩
  intro ps
  simp [stoppedNotDeallocated, strContains, Bool.and_eq_true,
    Bool.not_eq_true', ← Bool.not_eq_true, containsSubL_iff]

/-- C10: every record in the merged orphaned-disk inventory has a present,
non-empty resource id: records lacking an id are silently dropped and so
never yield a disk Finding. -/
theorem claim_C10 (by_managed by_state : List DiskRec) (d : DiskRec)
    (hd : d ∈ get_orphaned_disks by_managed by_state) :
    ∃ s : String, d.id = some s ∧ s ≠ "" := by
  have hkey : idKey d ≠ "" := (dedupDisks_mem d _ _ hd).2
  rcases hid : d.id with _ | s
  · refine absurd ?_ hkey
    simp only [idKey, hid, Option.getD_none]
    rfl
  · refine ⟨s, rfl, ?_⟩
    rintro rfl
    refine hkey ?_
    simp only [idKey, hid, Option.getD_some]
    rfl

/-- C10 witness: a disk record with no id, coming from either filter, is
absent from the merged inventory; the one with an id survives with its id
present and non-empty. -/
theorem claim_C10_witness :
    ∃ s : String,
      (DiskRec.mk (some "/subscriptions/abc/d1") (some "d1") (some "rg")
        (some "uks") (some 10) (some "Premium_LRS")).id = some s ∧ s ≠ "" :=
  claim_C10
    [{ id := none, name := some "lost", resourceGroup := some "rg",
       location := some "uks", sizeGb := some 5, sku := none }]
    [{ id := some "/subscriptions/abc/d1", name := some "d1",
       resourceGroup := some "rg", location := some "uks",
       sizeGb := some 10, sku := some "Premium_LRS" }]
    _ (by decide)

/-- C5 counterexample: a disk in resource group `flasks` whose NAME triggers
the `pvc-` rule is classified AKS-related, so its Finding's bucket is not
`immediate` — the claim quantified over every resource with that resource
group is false on the code. -/
theorem claim_C5_counterexample :
    (subFindings "sub" (some "sid") true [] none
        [{ id := some "/subscriptions/abc/d1", name := some "pvc-1234",
           resourceGroup := some "flasks", location := some "uks",
           sizeGb := some 10, sku := some "Premium_LRS" }]
        [] [] [] [] 0 0).map Finding.bucket = ["aks_review"]
    ∧ "aks_review" ≠ "immediate" := by
  refine ⟨?_, by decide⟩
  decide

/-- C5 (amended): the `aks` token rule indeed rejects `flasks` and
`tasks-prod` (the whole RG pattern does not match them), so a resource in
those resource groups is classified `immediate` provided its resource NAME
does not independently trigger the name-based rules. -/
theorem claim_C5 :
    (aksRgMatch "flasks" = false ∧ aksRgMatch "tasks-prod" = false)
    ∧ (∀ (name : Option String) (rg : String),
        (rg = "flasks" ∨ rg = "tasks-prod") →
        nameChecks (pyLower (name.getD "")) = false →
        is_aks_related name (some rg) = false) := by
  refine ⟨⟨by decide, by decide⟩, ?_⟩
  intro name rg hrg hname
  rcases hrg with rfl | rfl <;>
    simp [is_aks_related, hname] <;> decide

/-- C5 witness: a plainly named resource in resource group `flasks` is not
AKS-related. -/
theorem claim_C5_witness :
    is_aks_related (some "data-disk-1") (some "flasks") = false :=
  claim_C5.2 (some "data-disk-1") "flasks" (Or.inl rfl) (by decide)

/-- C6: a snapshot created exactly `N` days before `now` passes the filter at
threshold `N`: the boundary check `dt.timestamp() <= cutoff` is inclusive,
and the snapshot comes out with `ageDays = N`. -/
theorem claim_C6 (now : Int) (N : Nat) (s : SnapRec)
    (hts : s.timeCreated = some (now - N * 86400)) :
    snapKeep now N (now - N * 86400) = true
    ∧ get_snapshots_older_than_days now N [s]
        = [{ s with ageDays := some (N : Int) }] := by
  have hkeep : snapKeep now N (now - N * 86400) = true := by
    simp [snapKeep]
  refine ⟨hkeep, ?_⟩
  have hage : snapAgeDays now (now - N * 86400) = (N : Int) := by
    simp only [snapAgeDays, sub_sub_cancel]
    exact Int.mul_fdiv_cancel _ (by norm_num)
  simp [get_snapshots_older_than_days, hts, hkeep, hage]

/-- C6 witness: with `now = 0` and threshold 3 days, a snapshot created at
timestamp `-259200 = -3·86400` is kept, with `ageDays = 3`. -/
theorem claim_C6_witness :
    get_snapshots_older_than_days 0 3
        [{ id := some "/subscriptions/abc/s1", name := some "s1",
           resourceGroup := some "rg", location := some "uks",
           timeCreated := some (-259200), sizeGb := some 10 }]
      = [{ id := some "/subscriptions/abc/s1", name := some "s1",
           resourceGroup := some "rg", location := some "uks",
           timeCreated := some (-259200), sizeGb := some 10,
           ageDays := some 3 }] :=
  (claim_C6 0 3
    { id := some "/subscriptions/abc/s1", name := some "s1",
      resourceGroup := some "rg", location := some "uks",
      timeCreated := some (-259200), sizeGb := some 10 }
    (by decide)).2

/-- Keys after a dict assignment: the assigned key or an existing key. -/
theorem mem_keys_dictInsert {k' k : String} {v : Rat} :
    ∀ {m : CostMap}, k' ∈ (dictInsert m k v).map Prod.fst →
      k' = k ∨ k' ∈ m.map Prod.fst
  | [], h => by
    rw [dictInsert, List.map_cons, List.mem_cons] at h
    rcases h with he | hm
    · exact Or.inl he
    · simp at hm
  | (a, b) :: rest, h => by
    rw [dictInsert] at h
    by_cases hak : a = k
    · rw [if_pos hak, List.map_cons, List.mem_cons] at h
      rcases h with he | hm
      · exact Or.inl he
      · exact Or.inr (by rw [List.map_cons, List.mem_cons]; exact Or.inr hm)
    · rw [if_neg hak, List.map_cons, List.mem_cons] at h
      rcases h with he | hm
      · exact Or.inr (by rw [List.map_cons, List.mem_cons]; exact Or.inl he)
      · rcases mem_keys_dictInsert hm with he | hm'
        · exact Or.inl he
        · exact Or.inr (by rw [List.map_cons, List.mem_cons]; exact Or.inr hm')

/-- Looking up the just-assigned key returns the assigned value. -/
theorem dictGet_dictInsert_self (k : String) (v : Rat) :
    ∀ m : CostMap, dictGet (dictInsert m k v) k = some v
  | [] => by simp [dictInsert, dictGet]
  | (a, b) :: rest => by
    rw [dictInsert]
    by_cases hak : a = k
    · rw [if_pos hak, dictGet, if_pos rfl]
    · rw [if_neg hak, dictGet, if_neg hak]
      exact dictGet_dictInsert_self k v rest

/-- Unfolding of the row loop on a cons cell. -/
theorem buildCostMap_cons (ir ic : Nat) (icur : Option Nat) (r : List JVal)
    (rest : List (List JVal)) (m : CostMap) (cur : Option JVal) :
    buildCostMap ir ic icur (r :: rest) (m, cur) =
      if truthy (cellAt r ir) then
        buildCostMap ir ic icur rest
          (dictInsert m (pyLower (cellStr (cellAt r ir))) (cellFloat (cellAt r ic)),
            match icur with | some j => some (cellAt r j) | none => cur)
      else
        buildCostMap ir ic icur rest
          (m, match icur with | some j => some (cellAt r j) | none => cur) := rfl

/-- Every key the row loop adds is the lower-casing of some row's
resource-id cell. -/
theorem buildCostMap_keys (ir ic : Nat) (icur : Option Nat) :
    ∀ (rows : List (List JVal)) (m : CostMap) (cur : Option JVal) (k : String),
      k ∈ (buildCostMap ir ic icur rows (m, cur)).1.map Prod.fst →
      k ∈ m.map Prod.fst ∨ ∃ r ∈ rows, k = pyLower (cellStr (cellAt r ir))
  | [], m, cur, k, h => Or.inl h
  | r :: rest, m, cur, k, h => by
    rw [buildCostMap_cons] at h
    by_cases ht : truthy (cellAt r ir)
    · rw [if_pos ht] at h
      rcases buildCostMap_keys ir ic icur rest _ _ k h with hm | ⟨r', hr', he⟩
      · rcases mem_keys_dictInsert hm with he | hm'
        · exact Or.inr ⟨r, List.mem_cons_self _ _, he⟩
        · exact Or.inl hm'
      · exact Or.inr ⟨r', List.mem_cons_of_mem _ hr', he⟩
    · rw [if_neg ht] at h
      rcases buildCostMap_keys ir ic icur rest _ _ k h with hm | ⟨r', hr', he⟩
      · exact Or.inl hm
      · exact Or.inr ⟨r', List.mem_cons_of_mem _ hr', he⟩

/-- C7: every key of the cost map built by the row loop is the lower-cased
resource-id of one of the rows; `get_cost` lower-cases its query, so lookups
agree on identifiers differing only in case; and a query differing only in
case from a stored row's identifier returns that row's cost. -/
theorem claim_C7 :
    (∀ (ir ic : Nat) (icur : Option Nat) (rows : List (List JVal)) (k : String),
      k ∈ (buildCostMap ir ic icur rows ([], none)).1.map Prod.fst →
      ∃ r ∈ rows, k = pyLower (cellStr (cellAt r ir)))
    ∧ (∀ (no_cost : Bool) (m : CostMap) (q1 q2 : Option String),
      pyLower (q1.getD "") = pyLower (q2.getD "") →
      get_cost no_cost m q1 = get_cost no_cost m q2)
    ∧ (∀ (m : CostMap) (rid q : String) (v : Rat),
      q ≠ "" → pyLower q = pyLower rid →
      get_cost false (dictInsert m (pyLower rid) v) (some q) = some v) := by
  refine ⟨?_, ?_, ?_⟩
  · intro ir ic icur rows k h
    rcases buildCostMap_keys ir ic icur rows [] none k h with hm | hex
    · simp at hm
    · exact hex
  · intro no_cost m q1 q2 hq
    have hemp : (q1.getD "" = "") ↔ (q2.getD "" = "") := by
      constructor
      · intro h1
        have : pyLower (q2.getD "") = "" := by
          rw [← hq, h1]
          rfl
        exact (pyLower_eq_empty_iff _).mp this
      · intro h2
        have : pyLower (q1.getD "") = "" := by
          rw [hq, h2]
          rfl
        exact (pyLower_eq_empty_iff _).mp this
    by_cases h1 : q1.getD "" = ""
    · simp [get_cost, h1, hemp.mp h1]
    · have h2 : ¬ q2.getD "" = "" := fun h => h1 (hemp.mpr h)
      simp [get_cost, h1, h2, hq]
  · intro m rid q v hq hlow
    simp only [get_cost, Option.getD_some, hq, Bool.false_or, if_neg hq,
      Bool.false_eq_true, false_or, if_false]
    rw [hlow]
    exact dictGet_dictInsert_self _ _ _

/-- C7 witness: a cost row keyed `/SUBSCRIPTIONS/abc/Disk1` is found under
the query key `/subscriptions/abc/disk1`. -/
theorem claim_C7_witness :
    get_cost false (dictInsert [] (pyLower "/SUBSCRIPTIONS/abc/Disk1") 5)
        (some "/subscriptions/abc/disk1") = some 5 :=
  claim_C7.2.2 [] "/SUBSCRIPTIONS/abc/Disk1" "/subscriptions/abc/disk1" 5
    (by decide) (by decide)

/-- C8: when a continuation-page request raises, the pagination loop returns
the state accumulated so far (no error), and the cost map the Lookup returns
is built from the rows of the pages fetched before the failure. -/
theorem claim_C8 (fetch : String → Except Unit Page) (fuel : Nat) (link : String)
    (st : List Col × List (List JVal)) (first : Page)
    (herr : fetch link = Except.error ()) :
    paginate fetch (fuel + 1) (some link) st = st
    ∧ (first.nextLink = some link →
        get_cost_map_last30d_by_resource_id first fetch (fuel + 1)
          = finalizeCostMap first.columns first.rows) := by
  have hp : ∀ st' : List Col × List (List JVal),
      paginate fetch (fuel + 1) (some link) st' = st' := by
    intro st'
    rw [paginate, herr]
  refine ⟨hp st, ?_⟩
  intro hnl
  simp only [get_cost_map_last30d_by_resource_id, extract_from_response,
    List.isEmpty_nil, if_true, List.nil_append, hnl, hp]

/-- C8 witness: with a single continuation link whose fetch fails, the
returned cost map is the one built from the first page alone. -/
theorem claim_C8_witness :
    get_cost_map_last30d_by_resource_id
        { columns := [{ name := some "PreTaxCost" }, { name := some "ResourceId" },
                      { name := some "Currency" }],
          rows := [[JVal.num 5, JVal.str "/subscriptions/abc/Disk1", JVal.str "GBP"]],
          nextLink := some "https://next.page" }
        (fun _ => Except.error ()) 1
      = finalizeCostMap
          [{ name := some "PreTaxCost" }, { name := some "ResourceId" },
           { name := some "Currency" }]
          [[JVal.num 5, JVal.str "/subscriptions/abc/Disk1", JVal.str "GBP"]] :=
  (claim_C8 (fun _ => Except.error ()) 0 "https://next.page" ([], [])
    { columns := [{ name := some "PreTaxCost" }, { name := some "ResourceId" },
                  { name := some "Currency" }],
      rows := [[JVal.num 5, JVal.str "/subscriptions/abc/Disk1", JVal.str "GBP"]],
      nextLink := some "https://next.page" }
    rfl).2 rfl

/-- C1 counterexample: a snapshot record whose identifier has an entry in the
cost index, with cost lookup enabled, still gets a null `costLast30d` — the
snapshot loop in `main` hard-codes `None` and never consults the index, so
the claim's "including snapshots" is false on the code. -/
theorem claim_C1_counterexample :
    (mkSnapItem (some "GBP")
        { id := some "/subscriptions/abc/snap1", name := some "snap1",
          resourceGroup := some "rg", location := some "uks",
          timeCreated := some 0, sizeGb := some 10,
          ageDays := some 200 }).costLast30d = none
    ∧ get_cost false [("/subscriptions/abc/snap1", 5)]
        (some "/subscriptions/abc/snap1") = some 5 :=
  ⟨rfl, by decide⟩

/-- C1 (amended): every collected record yields exactly one Finding; for
disks, public IPs, NICs and VMs the Finding's cost is the case-insensitive
index lookup of the record's identifier, null exactly when lookup is
disabled, the identifier is missing/empty, or no index entry exists; snapshot
findings always carry a null cost. -/
theorem claim_C1 :
    (∀ (no_cost : Bool) (cm : CostMap) (currency : Option String) (d : DiskRec),
      (mkDiskItem no_cost cm currency d).costLast30d = get_cost no_cost cm d.id)
    ∧ (∀ (no_cost : Bool) (cm : CostMap) (currency : Option String) (p : PipRec),
      (mkPipItem no_cost cm currency p).costLast30d = get_cost no_cost cm p.id)
    ∧ (∀ (no_cost : Bool) (cm : CostMap) (currency : Option String) (n : NicRec),
      (mkNicItem no_cost cm currency n).costLast30d = get_cost no_cost cm n.id)
    ∧ (∀ (no_cost : Bool) (cm : CostMap) (currency : Option String) (v : VmRec),
      (mkVmItem no_cost cm currency v).costLast30d = get_cost no_cost cm v.id)
    ∧ (∀ (currency : Option String) (s : SnapRec),
      (mkSnapItem currency s).costLast30d = none)
    ∧ (∀ (no_cost : Bool) (cm : CostMap) (rid : Option String),
      get_cost no_cost cm rid = none ↔
        (no_cost = true ∨ rid.getD "" = ""
          ∨ dictGet cm (pyLower (rid.getD "")) = none))
    ∧ (∀ (sub_name : String) (sub_id : Option String) (no_cost : Bool)
        (cm : CostMap) (currency : Option String) (disks : List DiskRec)
        (pips : List PipRec) (nics : List NicRec) (vms : List VmRec)
        (snaps : List SnapRec) (ci cr : Rat),
      (subFindings sub_name sub_id no_cost cm currency disks pips nics vms
          snaps ci cr).length
        = disks.length + pips.length + nics.length + vms.length + snaps.length) := by
  refine ⟨fun _ _ _ _ => rfl, fun _ _ _ _ => rfl, fun _ _ _ _ => rfl,
    fun _ _ _ _ => rfl, fun _ _ => rfl, ?_, ?_⟩
  · intro no_cost cm rid
    by_cases hnc : no_cost = true <;> by_cases hr : rid.getD "" = "" <;>
      simp [get_cost, hnc, hr]
  · intro sub_name sub_id no_cost cm currency disks pips nics vms snaps ci cr
    have hd : (disks.filter
          (fun d => !is_aks_related d.name d.resourceGroup)).length
        + (disks.filter (fun d => is_aks_related d.name d.resourceGroup)).length
        = disks.length := by
      induction disks with
      | nil => rfl
      | cons d rest ih =>
        cases h : is_aks_related d.name d.resourceGroup <;>
          simp [List.filter_cons, h] <;> omega
    have hn : (nics.filter
          (fun n => !is_aks_related n.name n.resourceGroup)).length
        + (nics.filter (fun n => is_aks_related n.name n.resourceGroup)).length
        = nics.length := by
      induction nics with
      | nil => rfl
      | cons n rest ih =>
        cases h : is_aks_related n.name n.resourceGroup <;>
          simp [List.filter_cons, h] <;> omega
    simp only [subFindings, build_findings, immediateItems, reviewItems,
      snapshotItems, List.length_append, List.length_map]
    omega

/-- C2 counterexample: an AKS-related disk's Finding has bucket
`"aks_review"`, which is none of the three values the claim allows (the code
uses snake_case bucket strings, not `aksReview`/`snapshotReview`). -/
theorem claim_C2_counterexample :
    ¬ ∀ f ∈ subFindings "sub" (some "sid") true [] none
        [{ id := some "/subscriptions/abc/d1", name := some "pvc-1234",
           resourceGroup := some "rg-data", location := some "uks",
           sizeGb := some 10, sku := some "Premium_LRS" }]
        [] [] [] [] 0 0,
      f.bucket = "immediate" ∨ f.bucket = "aksReview"
        ∨ f.bucket = "snapshotReview" := by
  decide

/-- C2 (amended): every Finding's bucket is one of exactly `immediate`,
`aks_review`, `snapshot_review`; a disk classified AKS-related yields a
Finding with bucket `"aks_review"`. -/
theorem claim_C2 :
    (∀ (sub_name : String) (sub_id : Option String) (no_cost : Bool)
        (cm : CostMap) (currency : Option String) (disks : List DiskRec)
        (pips : List PipRec) (nics : List NicRec) (vms : List VmRec)
        (snaps : List SnapRec) (ci cr : Rat) (f : Finding),
      f ∈ subFindings sub_name sub_id no_cost cm currency disks pips nics vms
          snaps ci cr →
      f.bucket = "immediate" ∨ f.bucket = "aks_review"
        ∨ f.bucket = "snapshot_review")
    ∧ (∀ (sub_name : String) (sub_id : Option String) (no_cost : Bool)
        (cm : CostMap) (currency : Option String) (d : DiskRec) (ci cr : Rat),
      is_aks_related d.name d.resourceGroup = true →
      subFindings sub_name sub_id no_cost cm currency [d] [] [] [] [] ci cr
        = [{ subscription := sub_name, subscriptionId := sub_id,
             bucket := "aks_review",
             item := mkDiskItem no_cost cm currency d }]) := by
  constructor
  · intro sub_name sub_id no_cost cm currency disks pips nics vms snaps ci cr f hf
    simp only [subFindings, build_findings, List.mem_append, List.mem_map] at hf
    obtain (⟨i, hi, he⟩ | ⟨i, hi, he⟩) | ⟨i, hi, he⟩ := hf
    · exact Or.inl (by rw [← he])
    · exact Or.inr (Or.inl (by rw [← he]))
    · exact Or.inr (Or.inr (by rw [← he]))
  · intro sub_name sub_id no_cost cm currency d ci cr h
    simp [subFindings, build_findings, immediateItems, reviewItems,
      snapshotItems, List.filter_cons, h]

/-- C2 witness: a concrete unattached public IP's Finding carries one of the
three bucket strings. -/
theorem claim_C2_witness :
    (Finding.mk "sub" (some "sid") "immediate"
        (mkPipItem true [] none
          { id := some "/subscriptions/abc/ip1", name := some "ip1",
            resourceGroup := some "rg", location := some "uks",
            sku := some "Basic", ip := some "1.2.3.4" })).bucket = "immediate"
    ∨ (Finding.mk "sub" (some "sid") "immediate"
        (mkPipItem true [] none
          { id := some "/subscriptions/abc/ip1", name := some "ip1",
            resourceGroup := some "rg", location := some "uks",
            sku := some "Basic", ip := some "1.2.3.4" })).bucket = "aks_review"
    ∨ (Finding.mk "sub" (some "sid") "immediate"
        (mkPipItem true [] none
          { id := some "/subscriptions/abc/ip1", name := some "ip1",
            resourceGroup := some "rg", location := some "uks",
            sku := some "Basic", ip := some "1.2.3.4" })).bucket
        = "snapshot_review" :=
  claim_C2.1 "sub" (some "sid") true [] none []
    [{ id := some "/subscriptions/abc/ip1", name := some "ip1",
       resourceGroup := some "rg", location := some "uks",
       sku := some "Basic", ip := some "1.2.3.4" }]
    [] [] [] 0 0
    (Finding.mk "sub" (some "sid") "immediate"
      (mkPipItem true [] none
        { id := some "/subscriptions/abc/ip1", name := some "ip1",
          resourceGroup := some "rg", location := some "uks",
          sku := some "Basic", ip := some "1.2.3.4" }))
    (by decide)

/-- The sort comparison is transitive. -/
theorem snapSortLe_trans (a b c : SnapRec) :
    snapSortLe a b → snapSortLe b c → snapSortLe a c := by
  simp only [snapSortLe, decide_eq_true_eq]
  omega

/-- The sort comparison is total. -/
theorem snapSortLe_total (a b : SnapRec) : snapSortLe a b || snapSortLe b a := by
  simp only [snapSortLe, Bool.or_eq_true, decide_eq_true_eq]
  omega

/-- C9: the text renderer sorts snapshot findings by descending age
(the display list is a permutation prefix of the input, pairwise descending,
of length `min 20 n`, every displayed snapshot at least as old as every
non-displayed one), prints a remainder note exactly when more than 20 exist,
while the structured findings keep one snapshot finding per snapshot with no
truncation. -/
theorem claim_C9 (snapshots_old : List SnapRec) (sub_name : String)
    (sub_id : Option String) (imm rev : List Item) (currency : Option String)
    (ci cr : Rat) (no_cost : Bool) :
    (sortedSnapshotsDesc snapshots_old).Perm snapshots_old
    ∧ (sortedSnapshotsDesc snapshots_old).Pairwise
        (fun a b => b.ageDays.getD 0 ≤ a.ageDays.getD 0)
    ∧ displayedSnapshots snapshots_old = (sortedSnapshotsDesc snapshots_old).take 20
    ∧ (displayedSnapshots snapshots_old).length = min 20 snapshots_old.length
    ∧ (∀ x ∈ displayedSnapshots snapshots_old,
        ∀ y ∈ (sortedSnapshotsDesc snapshots_old).drop 20,
        y.ageDays.getD 0 ≤ x.ageDays.getD 0)
    ∧ (snapshots_old.length > 20 →
        snapshotRemainder snapshots_old = some (snapshots_old.length - 20))
    ∧ (snapshots_old.length ≤ 20 → snapshotRemainder snapshots_old = none)
    ∧ ((build_findings sub_name sub_id imm rev
          (snapshotItems currency snapshots_old) ci cr currency no_cost).filter
        (fun f => decide (f.bucket = "snapshot_review"))).length
        = snapshots_old.length := by
  have hsorted : (sortedSnapshotsDesc snapshots_old).Pairwise
      (fun a b => b.ageDays.getD 0 ≤ a.ageDays.getD 0) := by
    refine List.Pairwise.imp ?_
      (List.sorted_mergeSort snapSortLe_trans snapSortLe_total snapshots_old)
    intro a b h
    simpa [snapSortLe] using h
  refine ⟨List.mergeSort_perm _ _, hsorted, rfl, ?_, ?_, ?_, ?_, ?_⟩
  · simp [displayedSnapshots, sortedSnapshotsDesc]
  · intro x hx y hy
    have hp : (((sortedSnapshotsDesc snapshots_old).take 20)
        ++ ((sortedSnapshotsDesc snapshots_old).drop 20)).Pairwise
        (fun a b => b.ageDays.getD 0 ≤ a.ageDays.getD 0) := by
      rw [List.take_append_drop]
      exact hsorted
    exact (List.pairwise_append.mp hp).2.2 x hx y hy
  · intro h
    simp [snapshotRemainder, h]
  · intro h
    simp [snapshotRemainder, Nat.not_lt.mpr h]
  · simp [build_findings, snapshotItems, List.filter_append, List.filter_map,
      Function.comp_def]

/-- C9 witness: with 21 identical snapshot findings the remainder note reads
`1 more` and the display holds exactly 20. -/
theorem claim_C9_witness :
    snapshotRemainder (List.replicate 21
        { id := some "/subscriptions/abc/s1", name := some "s1",
          resourceGroup := some "rg", location := some "uks",
          timeCreated := some 0, sizeGb := some 10,
          ageDays := some 200 }) = some 1
    ∧ (displayedSnapshots (List.replicate 21
        { id := some "/subscriptions/abc/s1", name := some "s1",
          resourceGroup := some "rg", location := some "uks",
          timeCreated := some 0, sizeGb := some 10,
          ageDays := some 200 })).length
      = min 20 (List.replicate (α := SnapRec) 21
        { id := some "/subscriptions/abc/s1", name := some "s1",
          resourceGroup := some "rg", location := some "uks",
          timeCreated := some 0, sizeGb := some 10,
          ageDays := some 200 }).length :=
  ⟨(claim_C9 (List.replicate 21
      { id := some "/subscriptions/abc/s1", name := some "s1",
        resourceGroup := some "rg", location := some "uks",
        timeCreated := some 0, sizeGb := some 10,
        ageDays := some 200 }) "sub" none [] [] none 0 0
      false).2.2.2.2.2.1 (by decide),
    (claim_C9 (List.replicate 21
      { id := some "/subscriptions/abc/s1", name := some "s1",
        resourceGroup := some "rg", location := some "uks",
        timeCreated := some 0, sizeGb := some 10,
        ageDays := some 200 }) "sub" none [] [] none 0 0
      false).2.2.2.1⟩

end AzureIdleReport
